import Mathlib

/-!
Verification of the DataLik table-admin and metrics layer.

Shallow embedding of:
* `DataLik/utils/database.py` — `DatabaseManager.get_table_data`,
  `DatabaseManager.execute_query`, `DatabaseManager.get_business_metrics`;
* `DataLik/utils/data_processor.py` — `get_kpi_metrics`;
* `DataLik/modules/database_admin.py` — pagination in `show_database_admin`
  and the backup/restore loops in `show_database_backup`.

Database cell values are modelled by an explicit inductive type (`DBValue`);
JSON scalar values (what `json.dumps` / `json.loads` exchange) by `JValue`.
Environmental failure of a SQL statement (connection loss, constraint
violation, bad SQL) is modelled by explicit failure flags or by statements
returning `Except`, mirroring the `try/except` structure of the Python code.
-/

namespace DataLik

/-- Calendar date, as held in a `date` column (`datetime.date` in Python). -/
structure CalDate where
  year : Nat
  month : Nat
  day : Nat
deriving DecidableEq, Repr

/-- Two-digit zero padding used by `datetime.date.__str__` (ISO format). -/
def pad2 (n : Nat) : String :=
  if n < 10 then "0" ++ toString n else toString n

/-- `str(datetime.date(y, m, d))` = `"YYYY-MM-DD"`. -/
def CalDate.str (d : CalDate) : String :=
  toString d.year ++ "-" ++ pad2 d.month ++ "-" ++ pad2 d.day

/-- Fixed-point decimal, as held in a `DECIMAL` column (`decimal.Decimal`):
`unscaled / 10 ^ scale`, keeping the declared scale so that the textual form
(`str(Decimal)`) is reproduced exactly. -/
structure DecVal where
  unscaled : Int
  scale : Nat
deriving DecidableEq, Repr

/-- Left-pad a numeral string with zeros to length `k`. -/
def padZeros (s : String) (k : Nat) : String :=
  String.mk (List.replicate (k - s.length) '0') ++ s

/-- `str(decimal.Decimal)`: the unscaled digits with a decimal point inserted
`scale` places from the right (e.g. unscaled 7500000, scale 2 ↦ "75000.00"). -/
def DecVal.str (x : DecVal) : String :=
  let a := x.unscaled.natAbs
  let sign := if x.unscaled < 0 then "-" else ""
  if x.scale = 0 then sign ++ toString a
  else sign ++ toString (a / 10 ^ x.scale) ++ "." ++
    padZeros (toString (a % 10 ^ x.scale)) x.scale

/-- A scalar stored in a database cell.  Integers, strings and NULL are
JSON-native; dates and decimals are not and get stringified by
`json.dumps(..., default=str)` during backup. -/
inductive DBValue where
  | vint (n : Int)
  | vstr (s : String)
  | vnull
  | vdate (d : CalDate)
  | vdec (x : DecVal)
deriving DecidableEq, Repr

/-- A scalar in a JSON backup document (`json.dumps` / `json.loads`). -/
inductive JValue where
  | jint (n : Int)
  | jstr (s : String)
  | jnull
deriving DecidableEq, Repr

/-- JSON serialization of one cell, as performed by
`json.dumps(backup_data, indent=2, default=str)` in `show_database_backup`:
JSON-native values pass through, dates and decimals become their `str(...)`
form. -/
def jsonOf : DBValue → JValue
  | .vint n => .jint n
  | .vstr s => .jstr s
  | .vnull => .jnull
  | .vdate d => .jstr d.str
  | .vdec x => .jstr x.str

/-- The database value obtained from a JSON scalar on restore
(`json.loads` yields int / str / None; the INSERT stores it as given). -/
def dbOf : JValue → DBValue
  | .jint n => .vint n
  | .jstr s => .vstr s
  | .jnull => .vnull

/-- The net effect of one backup/restore round trip on a single cell:
identity on JSON-native values, stringification on dates and decimals. -/
def stringifyVal (v : DBValue) : DBValue := dbOf (jsonOf v)

/-- A database table: ordered column names and rows, each row holding one
value per column (in column order). -/
structure Table where
  cols : List String
  rows : List (List DBValue)
deriving DecidableEq, Repr

/-- The `pandas.DataFrame` returned by `get_table_data`: column labels plus
row data. -/
structure DataFrame where
  cols : List String
  rows : List (List DBValue)
deriving DecidableEq, Repr

/-- `pd.DataFrame()` — the empty frame returned on error. -/
def DataFrame.emptyDF : DataFrame := ⟨[], []⟩

/-- The Python `limit` argument of `get_table_data`: `None`, an integer, or
(as passed by `show_database_admin`) the string `"<n> OFFSET <off>"`. -/
inductive PyLimit where
  | pynone
  | pyint (n : Nat)
  | pystr (n off : Nat)
deriving DecidableEq, Repr

/-- Python truthiness of the `limit` argument (`if limit:`): `None` and `0`
are falsy, any nonempty string — including `"0 OFFSET 0"` — is truthy. -/
def PyLimit.truthy : PyLimit → Bool
  | .pynone => false
  | .pyint n => n != 0
  | .pystr _ _ => true

/-- Rows produced by `SELECT * FROM t` with the LIMIT clause appended only
when the `limit` argument is truthy; `LIMIT n` keeps the first `n` rows,
`LIMIT n OFFSET off` skips `off` rows first. -/
def sqlSelect (t : Table) (lim : PyLimit) : List (List DBValue) :=
  if lim.truthy then
    match lim with
    | .pynone => t.rows
    | .pyint n => t.rows.take n
    | .pystr n off => (t.rows.drop off).take n
  else t.rows

/-- `DatabaseManager.get_table_data(table_name, limit=None)`: on any query
failure (flag `fail`) the exception is caught and an empty `DataFrame` is
returned; otherwise the selected rows with the table's column names. -/
def get_table_data (fail : Bool) (t : Table) (lim : PyLimit) : DataFrame :=
  if fail then DataFrame.emptyDF else ⟨t.cols, sqlSelect t lim⟩

/-- The page fetch of `show_database_admin` (View Data tab): computes
`offset = (page_num - 1) * page_size` and calls
`get_table_data(table, limit=f"⟨page_size⟩ OFFSET ⟨offset⟩")`. -/
def fetch_page (t : Table) (page_size page_num : Nat) : DataFrame :=
  get_table_data false t (.pystr page_size ((page_num - 1) * page_size))

/-- One inventory row, restricted to the columns used by the low-stock
query of `get_business_metrics`. -/
structure InvItem where
  sku : String
  current_stock : Int
  reorder_point : Int
deriving DecidableEq, Repr

/-- The row set selected by
`SELECT COUNT(*) FROM inventory WHERE current_stock <= reorder_point`. -/
def low_stock_set (inv : List InvItem) : List InvItem :=
  inv.filter (fun i => i.current_stock ≤ i.reorder_point)

/-- The `low_stock_items` metric: the count returned by that query. -/
def low_stock_items (inv : List InvItem) : Nat :=
  inv.countP (fun i => i.current_stock ≤ i.reorder_point)

/-- The sample inventory rows inserted by `insert_sample_data`
(`sku`, `current_stock`, `reorder_point` columns only). -/
def sampleInventory : List InvItem :=
  [⟨"LAP-001", 25, 10⟩, ⟨"CHR-002", 8, 15⟩, ⟨"PRT-003", 45, 20⟩]

/-! ### Sessions and `execute_query` -/

/-- A SQLAlchemy session over database states of type `σ`: the durable
committed state and the in-transaction pending state. -/
structure Session (σ : Type) where
  committed : σ
  pending : σ
deriving DecidableEq, Repr

/-- `DatabaseManager.execute_query(query, params)`: runs the statement on the
session's pending state; on success commits (pending becomes durable) and
returns the result; on failure rolls the transaction back (pending reset to
the committed state), surfaces `f"Query execution error: ⟨e⟩"` via
`st.error`, and returns `None`.  A statement is modelled as a function from
database state to `Except` of result and next state. -/
def execute_query {σ ρ : Type} (stmt : σ → Except String (ρ × σ))
    (s : Session σ) : Session σ × Option ρ × Option String :=
  match stmt s.pending with
  | .ok (res, next) => (⟨next, next⟩, some res, none)
  | .error e => (⟨s.committed, s.committed⟩, none,
      some ("Query execution error: " ++ e))

/-! ### `get_business_metrics` -/

/-- The value the Python code derives from a finished aggregate query:
`result.scalar() or 0` maps a NULL scalar (and only a NULL or zero scalar)
to `0`; a failed query has no scalar at all. -/
def scalarOr0 : Except String (Option ℚ) → ℚ
  | .ok v => v.getD 0
  | .error _ => 0

/-- `DatabaseManager.get_business_metrics()`: issues five fixed aggregate
queries in order (active customers, paid revenue, low-stock count, active
employees, active projects), collecting them into a dict.  The whole body is
one `try`: the first failing query aborts the method, which catches the
exception and returns the empty dict `{}` — metrics already computed are
dropped.  The query outcomes are supplied as an environment `qs`. -/
def get_business_metrics (qs : Fin 5 → Except String (Option ℚ)) :
    List (String × ℚ) :=
  match qs 0, qs 1, qs 2, qs 3, qs 4 with
  | .ok v0, .ok v1, .ok v2, .ok v3, .ok v4 =>
      [("active_customers", v0.getD 0),
       ("total_revenue", v1.getD 0),
       ("low_stock_items", v2.getD 0),
       ("total_employees", v3.getD 0),
       ("active_projects", v4.getD 0)]
  | _, _, _, _, _ => []

/-! ### Backup and restore (`show_database_backup`) -/

/-- The database contents seen by the restore loop: rows per table name. -/
def DBState : Type := String → List (List DBValue)

/-- Replace the rows of one table. -/
def setRows (db : DBState) (tname : String) (rs : List (List DBValue)) :
    DBState :=
  fun n => if n = tname then rs else db n

/-- Environmental failure flags for the statements issued during restore:
whether the `DELETE FROM ⟨table⟩` fails, and whether the INSERT of a given
record into a given table fails. -/
structure RestoreEnv where
  delFails : String → Bool
  insFails : String → List (String × JValue) → Bool

/-- The fully-successful environment. -/
def noFail : RestoreEnv := ⟨fun _ => false, fun _ _ => false⟩

/-- One backup record: JSON keys (column names) paired with JSON values, in
key order — `df.to_dict('records')` after `json` round-tripping. -/
def to_records (df : DataFrame) : List (List (String × JValue)) :=
  df.rows.map (fun r => (df.cols.zip r).map (fun cv => (cv.1, jsonOf cv.2)))

/-- The backup of one table as stored under its name in the JSON document:
`db.get_table_data(table)` followed by `to_dict('records')` and JSON
serialization with `default=str`. -/
def backup_table (t : Table) : List (List (String × JValue)) :=
  to_records (get_table_data false t .pynone)

/-- The cell stored in column `c` by an INSERT whose column list and value
list come from the record's own keys and values: the value named `c` in the
record, or NULL when the record does not mention `c`. -/
def lookupRec (rec : List (String × JValue)) (c : String) : DBValue :=
  match rec.find? (fun p => p.1 == c) with
  | some p => dbOf p.2
  | none => .vnull

/-- `DELETE FROM ⟨table⟩` (no WHERE) as a statement: empties the table's
rows, or fails according to the environment. -/
def delete_stmt (env : RestoreEnv) (tname : String) :
    DBState → Except String (Unit × DBState) :=
  fun db =>
    if env.delFails tname then .error ("delete from " ++ tname ++ " failed")
    else .ok ((), setRows db tname [])

/-- `INSERT INTO ⟨table⟩ (keys…) VALUES (values…)` for one backup record:
appends the row whose cell in each table column is the record's value for
that column, or fails according to the environment. -/
def insert_stmt (env : RestoreEnv) (schema : String → List String)
    (tname : String) (rec : List (String × JValue)) :
    DBState → Except String (Unit × DBState) :=
  fun db =>
    if env.insFails tname rec then
      .error ("insert into " ++ tname ++ " failed")
    else .ok ((), setRows db tname (db tname ++ [(schema tname).map (lookupRec rec)]))

/-- `db.execute_query(...)` as called by the restore loop: the returned
value (`result` or `None`) is discarded, only the session survives. -/
def run_query (stmt : DBState → Except String (Unit × DBState))
    (s : Session DBState) : Session DBState :=
  (execute_query stmt s).1

/-- The per-table body of the restore loop: clear the table, then insert
each record in order.  All statements go through `execute_query`, which
catches its own exceptions and returns `None` on failure, so no step here
can raise. -/
def restore_table_body (env : RestoreEnv) (schema : String → List String)
    (tname : String) (records : List (List (String × JValue)))
    (s : Session DBState) : Session DBState :=
  records.foldl (fun s rec => run_query (insert_stmt env schema tname rec) s)
    (run_query (delete_stmt env tname) s)

/-- The restore loop of `show_database_backup`: for each top-level key of
the uploaded document run the per-table body, then append the table name to
`restored_tables`.  The surrounding `try/except` would catch an exception
and skip the append, but because `execute_query` swallows every database
error (returning `None` instead of raising), the body never raises on a
well-formed document and the append runs unconditionally. -/
def restore_all (env : RestoreEnv) (schema : String → List String)
    (doc : List (String × List (List (String × JValue))))
    (s0 : Session DBState) : Session DBState × List String :=
  doc.foldl
    (fun acc entry =>
      (restore_table_body env schema entry.1 entry.2 acc.1,
       acc.2 ++ [entry.1]))
    (s0, [])

/-- The database contents after a fully-successful restore of a document:
entry by entry, the named table's rows are replaced by the rows rebuilt
from its records. -/
def restored_db (schema : String → List String)
    (doc : List (String × List (List (String × JValue))))
    (db : DBState) : DBState :=
  doc.foldl
    (fun db entry =>
      setRows db entry.1
        (entry.2.map (fun rec => (schema entry.1).map (lookupRec rec))))
    db

/-! ### `get_kpi_metrics` (`data_processor.py`) -/

/-- One transaction-like row of the input dataset: the `date` cell (a day
number, after `pd.to_datetime`), the `revenue` cell, the `customer` cell.
When the dataset lacks the `revenue` / `customer` / `date` column, the
corresponding cells are never read (see `KData`). -/
structure KRow where
  date : Int
  revenue : ℚ
  customer : Nat
deriving DecidableEq, Repr

/-- The input `DataFrame` of `get_kpi_metrics`: which of the three named
columns are present (`'revenue' in data.columns` …), and the rows. -/
structure KData where
  hasRevenue : Bool
  hasCustomer : Bool
  hasDate : Bool
  rows : List KRow
deriving DecidableEq, Repr

/-- `data['revenue'].sum()`. -/
def revSum (l : List KRow) : ℚ := (l.map (fun r => r.revenue)).sum

/-- `data['customer'].nunique()`. -/
def nuniq (l : List KRow) : Nat := ((l.map (fun r => r.customer)).dedup).length

/-- `data['date'].max()` on a nonempty frame (0 on the empty frame, where
the Python code never evaluates it). -/
def latestDate : List KRow → Int
  | [] => 0
  | r :: rs => rs.foldl (fun m x => max m x.date) r.date

/-- `current_start = latest_date - timedelta(days=30)`. -/
def currentStart (rows : List KRow) : Int := latestDate rows - 30

/-- `current_data = data[data['date'] >= current_start]`. -/
def currentWindow (rows : List KRow) : List KRow :=
  rows.filter (fun r => currentStart rows ≤ r.date)

/-- `previous_data = data[(data['date'] >= previous_start) & (data['date'] <
current_start)]` with `previous_start = current_start - timedelta(days=30)`. -/
def previousWindow (rows : List KRow) : List KRow :=
  rows.filter (fun r =>
    decide (currentStart rows - 30 ≤ r.date) && decide (r.date < currentStart rows))

/-- The growth-rate pattern used four times by the Python code:
`((current - previous) / previous * 100) if previous > 0 else 0`. -/
def growthRate (cur prev : ℚ) : ℚ :=
  if 0 < prev then (cur - prev) / prev * 100 else 0

/-- `metrics['total_revenue']` on a nonempty frame. -/
def total_revenue_of (d : KData) : ℚ :=
  if d.hasRevenue then revSum d.rows else 0

/-- `metrics['active_customers']` on a nonempty frame. -/
def active_customers_of (d : KData) : ℚ :=
  if d.hasCustomer then (nuniq d.rows : ℚ) else 0

/-- `current_revenue` (0 when the `revenue` column is absent). -/
def cur_rev (d : KData) : ℚ :=
  if d.hasRevenue then revSum (currentWindow d.rows) else 0

/-- `previous_revenue` (0 when the `revenue` column is absent). -/
def prev_rev (d : KData) : ℚ :=
  if d.hasRevenue then revSum (previousWindow d.rows) else 0

/-- `current_aov = current_revenue / current_orders if current_orders > 0
else 0`. -/
def cur_aov (d : KData) : ℚ :=
  if 0 < (currentWindow d.rows).length then
    cur_rev d / ((currentWindow d.rows).length : ℚ)
  else 0

/-- `previous_aov = previous_revenue / previous_orders if previous_orders >
0 else 0`. -/
def prev_aov (d : KData) : ℚ :=
  if 0 < (previousWindow d.rows).length then
    prev_rev d / ((previousWindow d.rows).length : ℚ)
  else 0

/-- The four growth entries computed on a nonempty frame: 0 when the `date`
column is absent or either window is empty, else the `growthRate` pattern
applied to revenue, order count, unique customers (0 without a `customer`
column) and average order value. -/
def kpiGrowths (d : KData) : ℚ × ℚ × ℚ × ℚ :=
  if d.hasDate then
    if previousWindow d.rows ≠ [] ∧ currentWindow d.rows ≠ [] then
      (growthRate (cur_rev d) (prev_rev d),
       growthRate ((currentWindow d.rows).length : ℚ)
         ((previousWindow d.rows).length : ℚ),
       if d.hasCustomer then
         growthRate (nuniq (currentWindow d.rows) : ℚ)
           (nuniq (previousWindow d.rows) : ℚ)
       else 0,
       growthRate (cur_aov d) (prev_aov d))
    else (0, 0, 0, 0)
  else (0, 0, 0, 0)

/-- The eight keys of the returned dict, in insertion order. -/
def kpiKeys : List String :=
  ["total_revenue", "total_orders", "active_customers", "avg_order_value",
   "revenue_growth", "order_growth", "customer_growth", "aov_growth"]

/-- `get_kpi_metrics(data)` (`data_processor.py`): on an empty frame all
eight metrics are 0; otherwise revenue total, row count, distinct-customer
count, average order value (`total_revenue / total_orders if total_orders >
0 else 0`) and the four period-over-period growth rates. -/
def get_kpi_metrics (d : KData) : List (String × ℚ) :=
  match d.rows with
  | [] =>
      [("total_revenue", 0), ("total_orders", 0), ("active_customers", 0),
       ("avg_order_value", 0), ("revenue_growth", 0), ("order_growth", 0),
       ("customer_growth", 0), ("aov_growth", 0)]
  | _ :: _ =>
      [("total_revenue", total_revenue_of d),
       ("total_orders", (d.rows.length : ℚ)),
       ("active_customers", active_customers_of d),
       ("avg_order_value",
         if 0 < (d.rows.length : ℚ) then
           total_revenue_of d / (d.rows.length : ℚ)
         else 0),
       ("revenue_growth", (kpiGrowths d).1),
       ("order_growth", (kpiGrowths d).2.1),
       ("customer_growth", (kpiGrowths d).2.2.1),
       ("aov_growth", (kpiGrowths d).2.2.2)]

/-! ### Concrete instances used by witnesses and counterexamples -/

/-- A five-row `customers` table content (the pre-restore state of the
full-replace scenario). -/
def old5 : List (List DBValue) :=
  [[.vint 1, .vstr "a"], [.vint 2, .vstr "b"], [.vint 3, .vstr "c"],
   [.vint 4, .vstr "d"], [.vint 5, .vstr "e"]]

/-- A database holding those five rows under `customers`. -/
def db5 : DBState := fun n => if n = "customers" then old5 else []

/-- The single record of the backup document
`{"customers": [{"id": 1, "name": "Ann"}]}`. -/
def annRec : List (String × JValue) := [("id", .jint 1), ("name", .jstr "Ann")]

/-- Column schema giving `customers` the columns `id`, `name`. -/
def schema0 : String → List String :=
  fun n => if n = "customers" then ["id", "name"] else []

/-- Failure environment in which `DELETE FROM customers` fails and every
INSERT succeeds. -/
def cexEnv7 : RestoreEnv := ⟨fun n => n == "customers", fun _ _ => false⟩

/-- A single inventory record of a backup document. -/
def invRec : List (String × JValue) := [("n", .jint 9)]

/-- Column schema for the two-table document `doc2`. -/
def schema2 : String → List String :=
  fun n => if n = "customers" then ["id", "name"]
    else if n = "inventory" then ["n"] else []

/-- A two-table backup document (the backup UI multi-selects tables, so
documents normally hold several top-level keys). -/
def doc2 : List (String × List (List (String × JValue))) :=
  [("customers", [annRec]), ("inventory", [invRec])]

/-- The empty database (every table has no rows). -/
def emptyDB : DBState := fun _ => []

/-- A table with JSON-native and non-native (date, decimal) cells. -/
def demoT : Table :=
  ⟨["id", "name", "joined", "bal"],
   [[.vint 1, .vstr "Ann", .vdate ⟨2024, 1, 15⟩, .vdec ⟨7500000, 2⟩],
    [.vint 2, .vstr "Bob", .vdate ⟨2023, 11, 3⟩, .vdec ⟨50, 0⟩]]⟩

/-- A five-row single-column table for pagination witnesses. -/
def demoPages : Table :=
  ⟨["x"], [[.vint 1], [.vint 2], [.vint 3], [.vint 4], [.vint 5]]⟩

/-- Query environment where the first metric query succeeds with 7, the
second fails, the rest succeed. -/
def bmFailEnv : Fin 5 → Except String (Option ℚ) :=
  fun i => if i = 0 then .ok (some 7)
    else if i = 1 then .error "connection lost" else .ok (some 1)

/-- Query environment where every metric query succeeds with scalar 3. -/
def bmOkEnv : Fin 5 → Except String (Option ℚ) := fun _ => .ok (some 3)

/-- Dataset whose previous 30-day window has a negative revenue sum:
latest date 40, current window holds the revenue-10 row, previous window
(dates in [−20, 10)) holds the revenue-(−10) row. -/
def kpiCex : KData := ⟨true, false, true, [⟨40, 10, 0⟩, ⟨0, -10, 0⟩]⟩

/-- Dataset with positive previous-period revenue (for witnesses). -/
def kpiW : KData := ⟨true, true, true, [⟨40, 10, 1⟩, ⟨0, 5, 2⟩]⟩

/-- A statement over an integer state that always fails. -/
def demoStmtFail : Int → Except String (Unit × Int) := fun _ => .error "syntax error"

/-- A statement over an integer state that increments it. -/
def demoStmtOk : Int → Except String (Unit × Int) := fun n => .ok ((), n + 1)

/-! ### Helper lemmas -/

theorem foldl_max_mem (a : Int) (l : List Int) :
    l.foldl max a = a ∨ l.foldl max a ∈ l := by
  induction l generalizing a with
  | nil => exact Or.inl rfl
  | cons x xs ih =>
    rcases ih (max a x) with h | h
    · rcases max_choice a x with hm | hm
      · exact Or.inl (by rw [List.foldl_cons, h, hm])
      · exact Or.inr (by rw [List.foldl_cons, h, hm]; exact List.mem_cons_self x xs)
    · exact Or.inr (List.mem_cons_of_mem x h)

theorem le_foldl_max (a : Int) (l : List Int) : a ≤ l.foldl max a := by
  induction l generalizing a with
  | nil => exact le_refl a
  | cons x xs ih => exact le_trans (le_max_left a x) (ih (max a x))

/-- The row carrying the maximal date witnesses `latestDate` membership. -/
theorem latestDate_mem (r : KRow) (rs : List KRow) :
    ∃ x ∈ r :: rs, x.date = latestDate (r :: rs) := by
  have hfold : latestDate (r :: rs)
      = (rs.map (fun x => x.date)).foldl max r.date := by
    simp [latestDate, List.foldl_map]
  rcases foldl_max_mem r.date (rs.map (fun x => x.date)) with h | h
  · exact ⟨r, List.mem_cons_self r rs, by rw [hfold, h]⟩
  · rcases List.mem_map.mp h with ⟨x, hx, hxd⟩
    exact ⟨x, List.mem_cons_of_mem r hx, by rw [hfold, hxd]⟩

/-- On a nonempty frame the current 30-day window is nonempty: the row with
the maximal date always satisfies `date >= current_start`. -/
theorem currentWindow_ne_nil (rows : List KRow) (h : rows ≠ []) :
    currentWindow rows ≠ [] := by
  match rows, h with
  | r :: rs, _ =>
    obtain ⟨x, hx, hxd⟩ := latestDate_mem r rs
    have hmem : x ∈ currentWindow (r :: rs) := by
      refine List.mem_filter.mpr ⟨hx, ?_⟩
      simp only [decide_eq_true_iff, currentStart, hxd]
      omega
    exact List.ne_nil_of_mem hmem

/-- When every backup record lists exactly the table's columns in order,
rebuilding a row by looking each column up in the record recovers the
original row up to stringification. -/
theorem map_lookupRec_zip (cols : List String) (r : List DBValue)
    (hnd : cols.Nodup) (hlen : r.length = cols.length) :
    cols.map (lookupRec ((cols.zip r).map (fun cv => (cv.1, jsonOf cv.2))))
      = r.map stringifyVal := by
  induction cols generalizing r with
  | nil =>
    cases r with
    | nil => rfl
    | cons v vs => simp at hlen
  | cons c cs ih =>
    cases r with
    | nil => simp at hlen
    | cons v vs =>
      have hnotin : c ∉ cs := (List.nodup_cons.mp hnd).1
      have hndcs : cs.Nodup := (List.nodup_cons.mp hnd).2
      have hlencs : vs.length = cs.length := by simpa using hlen
      simp only [List.zip_cons_cons, List.map_cons]
      congr 1
      · simp [lookupRec, stringifyVal]
      · have hstep : ∀ c2 ∈ cs,
            lookupRec ((c, jsonOf v) ::
              ((cs.zip vs).map (fun cv => (cv.1, jsonOf cv.2)))) c2
              = lookupRec ((cs.zip vs).map (fun cv => (cv.1, jsonOf cv.2))) c2 := by
          intro c2 hc2
          have hne : c ≠ c2 := fun hEq => hnotin (hEq ▸ hc2)
          simp [lookupRec, List.find?_cons, hne]
        calc cs.map (lookupRec ((c, jsonOf v) ::
              ((cs.zip vs).map (fun cv => (cv.1, jsonOf cv.2)))))
            = cs.map (lookupRec ((cs.zip vs).map (fun cv => (cv.1, jsonOf cv.2)))) :=
              List.map_congr_left hstep
          _ = vs.map stringifyVal := ih vs hndcs hlencs

theorem setRows_self (db : DBState) (t : String) (rs : List (List DBValue)) :
    setRows db t rs t = rs := by
  simp [setRows]

theorem setRows_same (db : DBState) (t : String) : setRows db t (db t) = db := by
  funext n
  by_cases h : n = t <;> simp [setRows, h]

theorem setRows_setRows (db : DBState) (t : String)
    (rs1 rs2 : List (List DBValue)) :
    setRows (setRows db t rs1) t rs2 = setRows db t rs2 := by
  funext n
  by_cases h : n = t <;> simp [setRows, h]

/-- Folding the per-record INSERTs (all succeeding) over a session appends
exactly one row per record, each row given by looking the table's columns
up in the record. -/
theorem restore_fold_noFail (schema : String → List String) (tname : String)
    (recs : List (List (String × JValue))) (db : DBState) :
    recs.foldl (fun s rec => run_query (insert_stmt noFail schema tname rec) s)
        ⟨db, db⟩
      = ⟨setRows db tname
           (db tname ++ recs.map (fun rec => (schema tname).map (lookupRec rec))),
         setRows db tname
           (db tname ++ recs.map (fun rec => (schema tname).map (lookupRec rec)))⟩ := by
  induction recs generalizing db with
  | nil => simp [setRows_same]
  | cons rec recs ih =>
    have hstep : run_query (insert_stmt noFail schema tname rec) ⟨db, db⟩
        = ⟨setRows db tname (db tname ++ [(schema tname).map (lookupRec rec)]),
           setRows db tname (db tname ++ [(schema tname).map (lookupRec rec)])⟩ := by
      simp [run_query, execute_query, insert_stmt, noFail]
    rw [List.foldl_cons, hstep, ih]
    simp [setRows_self, setRows_setRows]

/-- The per-table restore body under the fully-successful environment:
the table's rows become exactly the rows rebuilt from the records. -/
theorem restore_table_body_noFail (schema : String → List String)
    (tname : String) (recs : List (List (String × JValue))) (db : DBState) :
    restore_table_body noFail schema tname recs ⟨db, db⟩
      = ⟨setRows db tname
           (recs.map (fun rec => (schema tname).map (lookupRec rec))),
         setRows db tname
           (recs.map (fun rec => (schema tname).map (lookupRec rec)))⟩ := by
  unfold restore_table_body
  have hdel : run_query (delete_stmt noFail tname) ⟨db, db⟩
      = ⟨setRows db tname [], setRows db tname []⟩ := by
    simp [run_query, execute_query, delete_stmt, noFail]
  rw [hdel, restore_fold_noFail]
  simp [setRows_self, setRows_setRows]

/-- `restore_all` on a one-table document is the per-table body plus the
report containing that table. -/
theorem restore_all_single (env : RestoreEnv) (schema : String → List String)
    (tname : String) (recs : List (List (String × JValue)))
    (s0 : Session DBState) :
    restore_all env schema [(tname, recs)] s0
      = (restore_table_body env schema tname recs s0, [tname]) := by
  simp [restore_all]

/-- A fully-successful restore of an arbitrary document: the resulting
session holds `restored_db` in both components and the report lists every
top-level key of the document in order. -/
theorem restore_all_noFail_general (schema : String → List String)
    (doc : List (String × List (List (String × JValue)))) (db : DBState) :
    restore_all noFail schema doc ⟨db, db⟩
      = (⟨restored_db schema doc db, restored_db schema doc db⟩,
         doc.map Prod.fst) := by
  have aux : ∀ (ds : List (String × List (List (String × JValue))))
      (db : DBState) (acc : List String),
      ds.foldl
        (fun acc2 entry =>
          (restore_table_body noFail schema entry.1 entry.2 acc2.1,
           acc2.2 ++ [entry.1]))
        (⟨db, db⟩, acc)
        = (⟨restored_db schema ds db, restored_db schema ds db⟩,
           acc ++ ds.map Prod.fst) := by
    intro ds
    induction ds with
    | nil => intro db acc; simp [restored_db]
    | cons e es ih =>
      intro db acc
      rw [List.foldl_cons]
      rw [show restore_table_body noFail schema e.1 e.2 ⟨db, db⟩
          = ⟨setRows db e.1
               (e.2.map (fun rec => (schema e.1).map (lookupRec rec))),
             setRows db e.1
               (e.2.map (fun rec => (schema e.1).map (lookupRec rec)))⟩
        from restore_table_body_noFail schema e.1 e.2 db]
      rw [ih]
      simp [restored_db]
  exact aux doc db []

/-- A table whose name is not a key of the document keeps its rows across
a fully-successful restore. -/
theorem restored_db_not_mem (schema : String → List String)
    (doc : List (String × List (List (String × JValue))))
    (db : DBState) (tname : String) (h : tname ∉ doc.map Prod.fst) :
    restored_db schema doc db tname = db tname := by
  induction doc generalizing db with
  | nil => rfl
  | cons e es ih =>
    simp only [List.map_cons, List.mem_cons, not_or] at h
    show restored_db schema es
        (setRows db e.1
          (e.2.map (fun rec => (schema e.1).map (lookupRec rec)))) tname
        = db tname
    rw [ih _ h.2]
    simp [setRows, h.1]

/-- A table listed in a document with distinct keys ends up holding exactly
the rows rebuilt from its records. -/
theorem restored_db_mem (schema : String → List String)
    (doc : List (String × List (List (String × JValue))))
    (db : DBState) (tname : String) (recs : List (List (String × JValue)))
    (hnd : (doc.map Prod.fst).Nodup) (hmem : (tname, recs) ∈ doc) :
    restored_db schema doc db tname
      = recs.map (fun rec => (schema tname).map (lookupRec rec)) := by
  induction doc generalizing db with
  | nil => cases hmem
  | cons e es ih =>
    simp only [List.map_cons, List.nodup_cons] at hnd
    show restored_db schema es
        (setRows db e.1
          (e.2.map (fun rec => (schema e.1).map (lookupRec rec)))) tname
        = recs.map (fun rec => (schema tname).map (lookupRec rec))
    rcases List.mem_cons.mp hmem with heq | hmem2
    · have h1 : e.1 = tname := by rw [← heq]
      have h2 : e.2 = recs := by rw [← heq]
      subst h1
      rw [restored_db_not_mem schema es _ e.1 hnd.1, setRows_self, h2]
    · exact ih _ hnd.2 hmem2

/-! ### Claim theorems -/

/-- Claim C5: an inventory item is counted in the `low_stock_items` metric
iff its `current_stock` is at most its `reorder_point`; the boundary case
`current_stock = reorder_point` is flagged; in the sample inventory CHR-002
(stock 8, reorder point 15) is in the low-stock set and LAP-001 (stock 25,
reorder point 10) is not. -/
theorem low_stock_characterization :
    (∀ (inv : List InvItem) (i : InvItem),
       i ∈ low_stock_set inv ↔ i ∈ inv ∧ i.current_stock ≤ i.reorder_point) ∧
    (∀ inv : List InvItem, low_stock_items inv = (low_stock_set inv).length) ∧
    (⟨"BND-000", 10, 10⟩ : InvItem) ∈ low_stock_set [⟨"BND-000", 10, 10⟩] ∧
    (⟨"CHR-002", 8, 15⟩ : InvItem) ∈ low_stock_set sampleInventory ∧
    (⟨"LAP-001", 25, 10⟩ : InvItem) ∉ low_stock_set sampleInventory := by
  refine ⟨?_, ?_, by decide, by decide, by decide⟩
  · intro inv i
    simp [low_stock_set, List.mem_filter]
  · intro inv
    simp [low_stock_items, low_stock_set, List.countP_eq_length_filter]

/-- Claim C6: the page fetch computes `offset = (page_num − 1) * page_size`
and issues `SELECT * ... LIMIT page_size OFFSET offset`, so page `p` holds
the rows `drop ((p − 1) * s)` then `take s` of the table; at most `s` rows
are returned, and on a duplicate-free table (no concurrent writes)
consecutive pages are disjoint. -/
theorem fetch_page_bounds (t : Table) (s p : Nat) (_hs : 0 < s) (hp : 0 < p) :
    (fetch_page t s p).rows = (t.rows.drop ((p - 1) * s)).take s ∧
    (fetch_page t s p).rows.length ≤ s ∧
    (t.rows.Nodup →
      List.Disjoint (fetch_page t s p).rows (fetch_page t s (p + 1)).rows) := by
  have hrows : ∀ q : Nat,
      (fetch_page t s q).rows = (t.rows.drop ((q - 1) * s)).take s := by
    intro q
    simp [fetch_page, get_table_data, sqlSelect, PyLimit.truthy]
  refine ⟨hrows p, ?_, ?_⟩
  · rw [hrows p]
    exact List.length_take_le s _
  · intro hnd
    rw [hrows p, hrows (p + 1)]
    have h1 : p - 1 + 1 = p := Nat.succ_pred_eq_of_pos hp
    have hpp : (p + 1 - 1) * s = (p - 1) * s + s := by
      rw [Nat.add_sub_cancel]
      conv_lhs => rw [← h1]
      rw [Nat.succ_mul]
    have hdd : t.rows.drop ((p - 1) * s + s)
        = (t.rows.drop ((p - 1) * s)).drop s := by
      rw [List.drop_drop, Nat.add_comm]
    rw [hpp, hdd]
    have hndl : (t.rows.drop ((p - 1) * s)).Nodup :=
      (List.drop_sublist ((p - 1) * s) t.rows).nodup hnd
    have hsplit : ((t.rows.drop ((p - 1) * s)).take s
        ++ (t.rows.drop ((p - 1) * s)).drop s).Nodup := by
      rw [List.take_append_drop]
      exact hndl
    have hdisj := (List.nodup_append.mp hsplit).2.2
    exact fun a haA haB => hdisj haA (List.take_subset s _ haB)

/-- Claim C6, witness: on a five-row table, page 2 of size 2 holds rows 3
and 4, has at most 2 rows, and is disjoint from page 3. -/
theorem fetch_page_bounds_holds :
    (fetch_page demoPages 2 2).rows = [[.vint 3], [.vint 4]] ∧
    (fetch_page demoPages 2 2).rows.length ≤ 2 ∧
    List.Disjoint (fetch_page demoPages 2 2).rows (fetch_page demoPages 2 3).rows :=
  ⟨(fetch_page_bounds demoPages 2 2 (by decide) (by decide)).1.trans (by decide),
   (fetch_page_bounds demoPages 2 2 (by decide) (by decide)).2.1,
   (fetch_page_bounds demoPages 2 2 (by decide) (by decide)).2.2 (by decide)⟩

/-- Claim C9: `get_table_data` never propagates an exception: on any query
failure it returns the empty `DataFrame`, and on success with `limit=None`
it returns every row of the table under the table's column names. -/
theorem get_table_data_total (t : Table) (lim : PyLimit) :
    get_table_data true t lim = DataFrame.emptyDF ∧
    get_table_data false t PyLimit.pynone = ⟨t.cols, t.rows⟩ :=
  ⟨rfl, rfl⟩

/-- Claim C4: for every uploaded backup document and every top-level table
name in it (keys distinct, as JSON object keys are), restore deletes every
existing row of that table and then inserts exactly the records listed
under that key, each record's JSON keys serving as column names — the
table's final contents do not depend on its prior rows, and tables not
named in the document keep theirs; restoring `⟨"customers": [⟨"id": 1,
"name": "Ann"⟩]⟩` onto a customers table already holding 5 rows leaves
exactly the 1 uploaded row (full replace, never merge). -/
theorem restore_full_replace :
    (∀ (schema : String → List String)
       (doc : List (String × List (List (String × JValue))))
       (db : DBState) (tname : String) (recs : List (List (String × JValue))),
       (doc.map Prod.fst).Nodup → (tname, recs) ∈ doc →
       ((restore_all noFail schema doc ⟨db, db⟩).1.committed) tname
         = recs.map (fun rec => (schema tname).map (lookupRec rec))) ∧
    (∀ (schema : String → List String)
       (doc : List (String × List (List (String × JValue))))
       (db : DBState) (tname : String),
       tname ∉ doc.map Prod.fst →
       ((restore_all noFail schema doc ⟨db, db⟩).1.committed) tname = db tname) ∧
    (db5 "customers").length = 5 ∧
    ((restore_all noFail schema0 [("customers", [annRec])]
        ⟨db5, db5⟩).1.committed) "customers" = [[.vint 1, .vstr "Ann"]] ∧
    (((restore_all noFail schema0 [("customers", [annRec])]
        ⟨db5, db5⟩).1.committed) "customers").length = 1 := by
  refine ⟨?_, ?_, by decide, by decide, by decide⟩
  · intro schema doc db tname recs hnd hmem
    rw [restore_all_noFail_general]
    exact restored_db_mem schema doc db tname recs hnd hmem
  · intro schema doc db tname hout
    rw [restore_all_noFail_general]
    exact restored_db_not_mem schema doc db tname hout

/-- Claim C4, witness: restoring the two-table document `doc2` onto a
database whose customers table holds 5 rows leaves customers with exactly
the uploaded Ann row, inventory with exactly its uploaded row, and the
unnamed projects table untouched. -/
theorem restore_full_replace_holds :
    ((restore_all noFail schema2 doc2 ⟨db5, db5⟩).1.committed) "customers"
      = [[.vint 1, .vstr "Ann"]] ∧
    ((restore_all noFail schema2 doc2 ⟨db5, db5⟩).1.committed) "inventory"
      = [[.vint 9]] ∧
    ((restore_all noFail schema2 doc2 ⟨db5, db5⟩).1.committed) "projects"
      = db5 "projects" :=
  ⟨(restore_full_replace.1 schema2 doc2 db5 "customers" [annRec]
      (by decide) (by decide)).trans (by decide),
   (restore_full_replace.1 schema2 doc2 db5 "inventory" [invRec]
      (by decide) (by decide)).trans (by decide),
   restore_full_replace.2.1 schema2 doc2 db5 "projects" (by decide)⟩

/-- Claim C3: backing a table up to the JSON document and restoring it onto
an empty table reproduces the original row set exactly, up to
stringification of the non-JSON-native cells (dates and decimals become
their string form). -/
theorem backup_restore_round_trip (t : Table) (tname : String)
    (hnd : t.cols.Nodup) (hlen : ∀ r ∈ t.rows, r.length = t.cols.length) :
    ((restore_all noFail (fun _ => t.cols) [(tname, backup_table t)]
        ⟨emptyDB, emptyDB⟩).1.committed) tname
      = t.rows.map (fun r => r.map stringifyVal) := by
  rw [restore_all_single, restore_table_body_noFail]
  show setRows emptyDB tname
      ((backup_table t).map (fun rec => t.cols.map (lookupRec rec))) tname = _
  rw [setRows_self]
  have hb : backup_table t
      = t.rows.map (fun r => (t.cols.zip r).map (fun cv => (cv.1, jsonOf cv.2))) := rfl
  rw [hb, List.map_map]
  apply List.map_congr_left
  intro r hr
  show t.cols.map (lookupRec ((t.cols.zip r).map (fun cv => (cv.1, jsonOf cv.2))))
      = r.map stringifyVal
  exact map_lookupRec_zip t.cols r hnd (hlen r hr)

/-- Claim C3, witness: round-tripping a concrete two-row table with integer,
string, date and decimal cells yields the same rows with the date and
decimal cells replaced by their string forms. -/
theorem backup_restore_round_trip_holds :
    ((restore_all noFail (fun _ => demoT.cols) [("t", backup_table demoT)]
        ⟨emptyDB, emptyDB⟩).1.committed) "t"
      = [[.vint 1, .vstr "Ann", .vstr "2024-01-15", .vstr "75000.00"],
         [.vint 2, .vstr "Bob", .vstr "2023-11-03", .vstr "50"]] :=
  (backup_restore_round_trip demoT "t" (by decide) (by decide)).trans (by decide)

/-- Claim C7, at its failing input: restoring the document
`⟨"customers": [⟨"id": 1, "name": "Ann"⟩]⟩` while `DELETE FROM customers`
fails (and the INSERT succeeds) still reports `customers` as restored, and
leaves the table with its 5 old rows plus the new one (6 rows, a merge) —
because `execute_query` swallows the failure and returns `None` instead of
raising, the per-table `except` branch never fires. -/
theorem restore_report_bug :
    cexEnv7.delFails "customers" = true ∧
    (restore_all cexEnv7 schema0 [("customers", [annRec])] ⟨db5, db5⟩).2
      = ["customers"] ∧
    ((restore_all cexEnv7 schema0 [("customers", [annRec])]
        ⟨db5, db5⟩).1.committed) "customers" = old5 ++ [[.vint 1, .vstr "Ann"]] ∧
    (((restore_all cexEnv7 schema0 [("customers", [annRec])]
        ⟨db5, db5⟩).1.committed) "customers").length = 6 := by
  refine ⟨by decide, by decide, by decide, by decide⟩

/-- Claim C8: `execute_query` on a clean session (no pending uncommitted
work): if the statement fails, the transaction is rolled back — the session
is exactly as before — no result set is returned, and the error text is
surfaced to the operator in full; if the statement succeeds, its effect is
committed and its result returned with no error. -/
theorem execute_query_tx {σ ρ : Type} (stmt : σ → Except String (ρ × σ))
    (s : Session σ) (hinv : s.pending = s.committed) :
    (∀ e, stmt s.pending = .error e →
       (execute_query stmt s).1 = s ∧
       (execute_query stmt s).2.1 = none ∧
       (execute_query stmt s).2.2 = some ("Query execution error: " ++ e)) ∧
    (∀ (res : ρ) (next : σ), stmt s.pending = .ok (res, next) →
       (execute_query stmt s).1 = ⟨next, next⟩ ∧
       (execute_query stmt s).2.1 = some res ∧
       (execute_query stmt s).2.2 = none) := by
  constructor
  · intro e he
    cases s with
    | mk c p =>
      simp only at hinv
      subst hinv
      simp [execute_query, he]
  · intro res next hn
    simp [execute_query, hn]

/-- Claim C8, witness: a failing statement leaves the session at `⟨0, 0⟩`
and surfaces its message; a succeeding increment commits state 1. -/
theorem execute_query_tx_holds :
    (execute_query demoStmtFail ⟨0, 0⟩).1 = ⟨0, 0⟩ ∧
    (execute_query demoStmtFail ⟨0, 0⟩).2.2
      = some "Query execution error: syntax error" ∧
    (execute_query demoStmtOk ⟨0, 0⟩).1 = ⟨1, 1⟩ :=
  ⟨((execute_query_tx demoStmtFail ⟨0, 0⟩ rfl).1 "syntax error" rfl).1,
   ((execute_query_tx demoStmtFail ⟨0, 0⟩ rfl).1 "syntax error" rfl).2.2,
   ((execute_query_tx demoStmtOk ⟨0, 0⟩ rfl).2 () 1 rfl).1⟩

/-- Claim C1, counterexample: when the first metric query succeeds with 7
and the second fails, `get_business_metrics` returns the empty mapping —
the succeeding metric's true value is not retained and no partial result
with defaults is produced, contrary to the claim. -/
theorem business_metrics_cex :
    bmFailEnv 0 = .ok (some 7) ∧
    bmFailEnv 1 = .error "connection lost" ∧
    get_business_metrics bmFailEnv = [] ∧
    ("active_customers", (7 : ℚ)) ∉ get_business_metrics bmFailEnv := by
  refine ⟨rfl, rfl, rfl, by simp [get_business_metrics, bmFailEnv]⟩

/-- Claim C1, amended: if any of the five underlying queries fails,
`get_business_metrics` catches the error and returns the empty mapping —
dropping every metric, including those already computed — without raising;
only when all five queries succeed does it return the five metrics, with
the default 0 substituted for a NULL aggregate. -/
theorem business_metrics_amended (qs : Fin 5 → Except String (Option ℚ)) :
    ((∃ i e, qs i = .error e) → get_business_metrics qs = []) ∧
    ((∀ i, ∃ v, qs i = .ok v) →
      get_business_metrics qs =
        [("active_customers", scalarOr0 (qs 0)),
         ("total_revenue", scalarOr0 (qs 1)),
         ("low_stock_items", scalarOr0 (qs 2)),
         ("total_employees", scalarOr0 (qs 3)),
         ("active_projects", scalarOr0 (qs 4))]) := by
  constructor
  · rintro ⟨i, e, hie⟩
    fin_cases i <;>
      cases h0 : qs 0 <;> cases h1 : qs 1 <;> cases h2 : qs 2 <;>
        cases h3 : qs 3 <;> cases h4 : qs 4 <;>
        simp_all [get_business_metrics]
  · intro h
    obtain ⟨v0, h0⟩ := h 0
    obtain ⟨v1, h1⟩ := h 1
    obtain ⟨v2, h2⟩ := h 2
    obtain ⟨v3, h3⟩ := h 3
    obtain ⟨v4, h4⟩ := h 4
    simp [get_business_metrics, scalarOr0, h0, h1, h2, h3, h4]

/-- Claim C1, witness for the amended statement: with one failing query the
result is empty; with all queries succeeding at scalar 3, all five metrics
are 3. -/
theorem business_metrics_amended_holds :
    get_business_metrics bmFailEnv = [] ∧
    get_business_metrics bmOkEnv =
      [("active_customers", (3 : ℚ)), ("total_revenue", 3),
       ("low_stock_items", 3), ("total_employees", 3),
       ("active_projects", 3)] :=
  ⟨(business_metrics_amended bmFailEnv).1 ⟨1, "connection lost", rfl⟩,
   ((business_metrics_amended bmOkEnv).2 (fun _ => ⟨some 3, rfl⟩)).trans (by decide)⟩

/-- Claim C2, amended: on a dataset with a date column, whenever the
previous 30-day window is nonempty each of the four growth rates equals
`(current − previous) / previous * 100` if the previous-period aggregate is
strictly positive and is exactly 0 otherwise — in particular it is exactly
0 (never NaN or infinity) when the previous-period aggregate is 0; when the
previous window is empty all four growth rates are 0. -/
theorem kpi_growth_amended (d : KData) (hd : d.hasDate = true) :
    (previousWindow d.rows ≠ [] →
      ((get_kpi_metrics d).lookup "revenue_growth"
          = some (if 0 < prev_rev d then
              (cur_rev d - prev_rev d) / prev_rev d * 100 else 0) ∧
       (get_kpi_metrics d).lookup "order_growth"
          = some (if 0 < ((previousWindow d.rows).length : ℚ) then
              (((currentWindow d.rows).length : ℚ)
                  - ((previousWindow d.rows).length : ℚ))
                / ((previousWindow d.rows).length : ℚ) * 100 else 0) ∧
       (get_kpi_metrics d).lookup "customer_growth"
          = some (if d.hasCustomer then
              (if 0 < ((nuniq (previousWindow d.rows)) : ℚ) then
                (((nuniq (currentWindow d.rows)) : ℚ)
                    - ((nuniq (previousWindow d.rows)) : ℚ))
                  / ((nuniq (previousWindow d.rows)) : ℚ) * 100 else 0)
              else 0) ∧
       (get_kpi_metrics d).lookup "aov_growth"
          = some (if 0 < prev_aov d then
              (cur_aov d - prev_aov d) / prev_aov d * 100 else 0) ∧
       (prev_rev d = 0 →
         (get_kpi_metrics d).lookup "revenue_growth" = some 0))) ∧
    (previousWindow d.rows = [] →
       (get_kpi_metrics d).lookup "revenue_growth" = some 0 ∧
       (get_kpi_metrics d).lookup "order_growth" = some 0 ∧
       (get_kpi_metrics d).lookup "customer_growth" = some 0 ∧
       (get_kpi_metrics d).lookup "aov_growth" = some 0) := by
  constructor
  · intro hpw
    have hrows : d.rows ≠ [] := by
      intro h
      exact hpw (by simp [previousWindow, h])
    have hcw : currentWindow d.rows ≠ [] := currentWindow_ne_nil d.rows hrows
    have hg : kpiGrowths d
        = (growthRate (cur_rev d) (prev_rev d),
           growthRate ((currentWindow d.rows).length : ℚ)
             ((previousWindow d.rows).length : ℚ),
           (if d.hasCustomer then
             growthRate ((nuniq (currentWindow d.rows)) : ℚ)
               ((nuniq (previousWindow d.rows)) : ℚ)
            else 0),
           growthRate (cur_aov d) (prev_aov d)) := by
      simp [kpiGrowths, hd, hpw, hcw]
    obtain ⟨r, rs, hr⟩ := List.exists_cons_of_ne_nil hrows
    have hm : get_kpi_metrics d
        = [("total_revenue", total_revenue_of d),
           ("total_orders", (d.rows.length : ℚ)),
           ("active_customers", active_customers_of d),
           ("avg_order_value",
             if 0 < (d.rows.length : ℚ) then
               total_revenue_of d / (d.rows.length : ℚ) else 0),
           ("revenue_growth", (kpiGrowths d).1),
           ("order_growth", (kpiGrowths d).2.1),
           ("customer_growth", (kpiGrowths d).2.2.1),
           ("aov_growth", (kpiGrowths d).2.2.2)] := by
      simp only [get_kpi_metrics, hr]
    refine ⟨?_, ?_, ?_, ?_, ?_⟩
    · rw [hm, hg]; rfl
    · rw [hm, hg]; rfl
    · rw [hm, hg]; rfl
    · rw [hm, hg]; rfl
    · intro h0
      rw [hm, hg]
      show some (growthRate (cur_rev d) (prev_rev d)) = some 0
      simp [growthRate, h0]
  · intro hpw
    by_cases hnil : d.rows = []
    · have hm0 : get_kpi_metrics d
          = [("total_revenue", 0), ("total_orders", 0), ("active_customers", 0),
             ("avg_order_value", 0), ("revenue_growth", 0), ("order_growth", 0),
             ("customer_growth", 0), ("aov_growth", 0)] := by
        simp only [get_kpi_metrics, hnil]
      exact ⟨by rw [hm0]; rfl, by rw [hm0]; rfl, by rw [hm0]; rfl,
        by rw [hm0]; rfl⟩
    · obtain ⟨r, rs, hr⟩ := List.exists_cons_of_ne_nil hnil
      have hg0 : kpiGrowths d = (0, 0, 0, 0) := by
        simp [kpiGrowths, hpw]
      have hm : get_kpi_metrics d
          = [("total_revenue", total_revenue_of d),
             ("total_orders", (d.rows.length : ℚ)),
             ("active_customers", active_customers_of d),
             ("avg_order_value",
               if 0 < (d.rows.length : ℚ) then
                 total_revenue_of d / (d.rows.length : ℚ) else 0),
             ("revenue_growth", (kpiGrowths d).1),
             ("order_growth", (kpiGrowths d).2.1),
             ("customer_growth", (kpiGrowths d).2.2.1),
             ("aov_growth", (kpiGrowths d).2.2.2)] := by
        simp only [get_kpi_metrics, hr]
      exact ⟨by rw [hm, hg0]; rfl, by rw [hm, hg0]; rfl, by rw [hm, hg0]; rfl,
        by rw [hm, hg0]; rfl⟩

/-- The four growth entries and the average-order-value entry of the
returned dict, looked up by key, on a nonempty frame. -/
theorem get_kpi_metrics_lookup (d : KData) (hne : d.rows ≠ []) :
    (get_kpi_metrics d).lookup "revenue_growth" = some (kpiGrowths d).1 ∧
    (get_kpi_metrics d).lookup "order_growth" = some (kpiGrowths d).2.1 ∧
    (get_kpi_metrics d).lookup "customer_growth" = some (kpiGrowths d).2.2.1 ∧
    (get_kpi_metrics d).lookup "aov_growth" = some (kpiGrowths d).2.2.2 ∧
    (get_kpi_metrics d).lookup "avg_order_value"
      = some (if 0 < (d.rows.length : ℚ) then
          total_revenue_of d / (d.rows.length : ℚ) else 0) := by
  obtain ⟨r, rs, hr⟩ := List.exists_cons_of_ne_nil hne
  have hm : get_kpi_metrics d
      = [("total_revenue", total_revenue_of d),
         ("total_orders", (d.rows.length : ℚ)),
         ("active_customers", active_customers_of d),
         ("avg_order_value",
           if 0 < (d.rows.length : ℚ) then
             total_revenue_of d / (d.rows.length : ℚ) else 0),
         ("revenue_growth", (kpiGrowths d).1),
         ("order_growth", (kpiGrowths d).2.1),
         ("customer_growth", (kpiGrowths d).2.2.1),
         ("aov_growth", (kpiGrowths d).2.2.2)] := by
    simp only [get_kpi_metrics, hr]
  exact ⟨by rw [hm]; rfl, by rw [hm]; rfl, by rw [hm]; rfl, by rw [hm]; rfl,
    by rw [hm]; rfl⟩

/-- Claim C2, counterexample: on a dataset whose previous 30-day window has
revenue sum −10 and whose current window has revenue sum 10, the reported
`revenue_growth` is 0, while the claimed formula
`(current − previous) / previous * 100` gives −200 — the previous-period
aggregate is nonzero, so the claim's zero-denominator clause does not
apply, yet the reported value is not the formula's. -/
theorem kpi_growth_cex :
    prev_rev kpiCex = -10 ∧
    prev_rev kpiCex ≠ 0 ∧
    cur_rev kpiCex = 10 ∧
    (get_kpi_metrics kpiCex).lookup "revenue_growth" = some 0 ∧
    (cur_rev kpiCex - prev_rev kpiCex) / prev_rev kpiCex * 100 = -200 := by
  have hpw : previousWindow kpiCex.rows = [⟨0, -10, 0⟩] := rfl
  have hcw : currentWindow kpiCex.rows = [⟨40, 10, 0⟩] := rfl
  have hprev : prev_rev kpiCex = -10 := by
    show (if kpiCex.hasRevenue then revSum (previousWindow kpiCex.rows) else 0)
        = -10
    rw [hpw]
    norm_num [revSum, show kpiCex.hasRevenue = true from rfl]
  have hcur : cur_rev kpiCex = 10 := by
    show (if kpiCex.hasRevenue then revSum (currentWindow kpiCex.rows) else 0)
        = 10
    rw [hcw]
    norm_num [revSum, show kpiCex.hasRevenue = true from rfl]
  have hg1 : (kpiGrowths kpiCex).1 = 0 := by
    have ht : kpiGrowths kpiCex
        = (growthRate (cur_rev kpiCex) (prev_rev kpiCex),
           growthRate ((currentWindow kpiCex.rows).length : ℚ)
             ((previousWindow kpiCex.rows).length : ℚ),
           (if kpiCex.hasCustomer then
             growthRate ((nuniq (currentWindow kpiCex.rows)) : ℚ)
               ((nuniq (previousWindow kpiCex.rows)) : ℚ)
            else 0),
           growthRate (cur_aov kpiCex) (prev_aov kpiCex)) := by
      simp [kpiGrowths, hpw, hcw, show kpiCex.hasDate = true from rfl]
    rw [ht]
    show growthRate (cur_rev kpiCex) (prev_rev kpiCex) = 0
    rw [hprev, hcur]
    norm_num [growthRate]
  refine ⟨hprev, by rw [hprev]; norm_num, hcur, ?_, by rw [hprev, hcur]; norm_num⟩
  rw [(get_kpi_metrics_lookup kpiCex (by simp [kpiCex])).1, hg1]

/-- Claim C2, witness for the amended statement: on a dataset whose
previous-window revenue is 5 and current-window revenue is 10, the reported
revenue growth is 100. -/
theorem kpi_growth_amended_holds :
    (get_kpi_metrics kpiW).lookup "revenue_growth" = some 100 := by
  have hpw : previousWindow kpiW.rows = [⟨0, 5, 2⟩] := rfl
  have h := ((kpi_growth_amended kpiW rfl).1 (by rw [hpw]; simp)).1
  rw [h]
  have hprev : prev_rev kpiW = 5 := by
    show (if kpiW.hasRevenue then revSum (previousWindow kpiW.rows) else 0) = 5
    rw [hpw]
    norm_num [revSum, show kpiW.hasRevenue = true from rfl]
  have hcur : cur_rev kpiW = 10 := by
    show (if kpiW.hasRevenue then revSum (currentWindow kpiW.rows) else 0) = 10
    rw [show currentWindow kpiW.rows = [⟨40, 10, 1⟩] from rfl]
    norm_num [revSum, show kpiW.hasRevenue = true from rfl]
  rw [hprev, hcur]
  norm_num

/-- Claim C10: `get_kpi_metrics` always returns a mapping with exactly the
eight keys in order; on the empty dataset all eight values are 0; and
`avg_order_value` is `total_revenue / total_orders` when the order count is
positive and 0 otherwise. -/
theorem kpi_shape (d : KData) :
    ((get_kpi_metrics d).map Prod.fst = kpiKeys) ∧
    (∀ h1 h2 h3 : Bool, get_kpi_metrics ⟨h1, h2, h3, []⟩
       = kpiKeys.map (fun k => (k, (0 : ℚ)))) ∧
    ((get_kpi_metrics d).lookup "avg_order_value"
       = some (if 0 < (d.rows.length : ℚ) then
           total_revenue_of d / (d.rows.length : ℚ) else 0)) := by
  refine ⟨?_, fun h1 h2 h3 => rfl, ?_⟩
  · cases hr : d.rows with
    | nil => simp only [get_kpi_metrics, hr]; rfl
    | cons r rs => simp only [get_kpi_metrics, hr]; rfl
  · cases hr : d.rows with
    | nil =>
      simp only [get_kpi_metrics, hr, List.length_nil, Nat.cast_zero,
        lt_irrefl, if_false]
      rfl
    | cons r rs =>
      simp only [get_kpi_metrics, hr]
      rfl

end DataLik
